import Mathlib

/-!
# Verification of the Helthana authentication core

Shallow embedding, in Lean 4, of the authentication and session-security
subsystem of the Helthana Django backend:

* `apps/authentication/tokens.py` — email-verification and password-reset
  token generators (string tokens `secret:base36(ts):signature`);
* `apps/authentication/models.py` — the `User` security fields
  (failed-attempt counter, lockout window, reset-token storage);
* `apps/authentication/middleware.py` — the sliding-window rate limiter;
* `apps/authentication/session_service.py` — `SessionManager` and
  `TokenManager` (session/refresh-JTI binding, rotation, audit writes);
* `apps/authentication/views.py` together with
  `backend/apps/authentication/serializers.py` and
  `backend/apps/authentication/error_handlers.py` — the login,
  password-reset-request, resend-verification and password-reset-confirm
  request handlers.

Python strings are modelled as `List Char` (`Str`); Unix timestamps and
durations as `Nat` seconds.  Cryptographic hash functions (`hashlib.sha256`
truncations and Django's token hash) are kept abstract as function
parameters: each is deterministic, which is the only property the code
relies on for the claims proved here.  Database rows live in plain lists;
Django's `objects.get`/`filter` become list lookups.
-/

/-- Python strings are modelled as lists of characters. -/
abbrev Str := List Char

/-- Predicate stating that `s` contains no occurrence of the character `c`. -/
def charFree (c : Char) (s : Str) : Bool :=
  s.all (fun x => x ≠ c)

/-! ## Base 36 (django.utils.http.int_to_base36 / base36_to_int)

`int_to_base36` renders a natural number with digits `0-9a-z`;
`base36_to_int` is Python's `int(s, 36)` (accepting upper and lower case)
with Django's extra guard `len(s) > 13 → ValueError`, modelled as `none`. -/

/-- The 36 digits used by `int_to_base36`, in order. -/
def b36chars : Str := "0123456789abcdefghijklmnopqrstuvwxyz".toList

/-- Digit character for a value `< 36`. -/
def b36digit (n : Nat) : Char := b36chars.getD n '0'

/-- Value of one base-36 digit character; `none` on characters Python's
`int(s, 36)` rejects. -/
def b36val (c : Char) : Option Nat :=
  if '0' ≤ c ∧ c ≤ '9' then some (c.toNat - 48)
  else if 'a' ≤ c ∧ c ≤ 'z' then some (c.toNat - 87)
  else if 'A' ≤ c ∧ c ≤ 'Z' then some (c.toNat - 55)
  else none

/-- Digit-list decoder with accumulator (Horner scheme of `int(s, 36)`). -/
def b36decodeList : Nat → Str → Option Nat
  | acc, [] => some acc
  | acc, c :: cs =>
    match b36val c with
    | none => none
    | some v => b36decodeList (acc * 36 + v) cs

/-- Embedding of `django.utils.http.base36_to_int`: rejects the empty string (Python
`int('', 36)` raises) and strings longer than 13 characters (Django's
explicit guard), otherwise decodes base 36. -/
def base36_to_int (s : Str) : Option Nat :=
  if s.length = 0 ∨ 13 < s.length then none else b36decodeList 0 s

/-- Fuel-driven digit emitter for `int_to_base36`; digits are prepended to
`ds`, so the most significant digit ends first. -/
def intToBase36Go : Nat → Nat → Str → Str
  | 0, _, ds => ds
  | fuel + 1, n, ds =>
    if n = 0 then ds else intToBase36Go fuel (n / 36) (b36digit (n % 36) :: ds)

/-- Embedding of `django.utils.http.int_to_base36`. -/
def int_to_base36 (n : Nat) : Str :=
  if n = 0 then ['0'] else intToBase36Go (n + 1) n []

theorem b36val_b36digit : ∀ k, k < 36 → b36val (b36digit k) = some k := by
  decide

theorem b36digit_ne_colon (n : Nat) : b36digit n ≠ ':' := by
  by_cases h : n < 36
  · exact (by decide : ∀ k, k < 36 → b36digit k ≠ ':') n h
  · have hlen : b36chars.length ≤ n := by
      have : b36chars.length = 36 := by decide
      omega
    have hnone : b36chars[n]? = none := List.getElem?_eq_none hlen
    simp [b36digit, List.getD, hnone]

theorem b36digit_ne_dash (n : Nat) : b36digit n ≠ '-' := by
  by_cases h : n < 36
  · exact (by decide : ∀ k, k < 36 → b36digit k ≠ '-') n h
  · have hlen : b36chars.length ≤ n := by
      have : b36chars.length = 36 := by decide
      omega
    have hnone : b36chars[n]? = none := List.getElem?_eq_none hlen
    simp [b36digit, List.getD, hnone]

theorem intToBase36Go_charFree (c : Char) (hc : ∀ k, b36digit k ≠ c) :
    ∀ fuel n ds, charFree c ds = true → charFree c (intToBase36Go fuel n ds) = true := by
  intro fuel
  induction fuel with
  | zero => intro n ds h; simpa [intToBase36Go] using h
  | succ fuel ih =>
    intro n ds h
    by_cases hn : n = 0
    · simpa [intToBase36Go, hn] using h
    · rw [intToBase36Go, if_neg hn]
      exact ih (n / 36) _ (by simpa [charFree, hc (n % 36)] using h)

theorem int_to_base36_no_colon (n : Nat) :
    charFree ':' (int_to_base36 n) = true := by
  unfold int_to_base36
  by_cases hn : n = 0
  · simp [hn, charFree]
  · rw [if_neg hn]
    exact intToBase36Go_charFree ':' b36digit_ne_colon _ n [] (by simp [charFree])

theorem int_to_base36_no_dash (n : Nat) :
    charFree '-' (int_to_base36 n) = true := by
  unfold int_to_base36
  by_cases hn : n = 0
  · simp [hn, charFree]
  · rw [if_neg hn]
    exact intToBase36Go_charFree '-' b36digit_ne_dash _ n [] (by simp [charFree])

theorem b36decodeList_intToBase36Go :
    ∀ fuel n ds, n < fuel →
      b36decodeList 0 (intToBase36Go fuel n ds) = b36decodeList n ds := by
  intro fuel
  induction fuel with
  | zero => intro n ds h; omega
  | succ fuel ih =>
    intro n ds h
    by_cases hn : n = 0
    · simp [intToBase36Go, hn]
    · rw [intToBase36Go, if_neg hn]
      have hdiv : n / 36 < fuel := by
        have h1 : n / 36 < n := Nat.div_lt_self (Nat.pos_of_ne_zero hn) (by omega)
        omega
      rw [ih (n / 36) _ hdiv]
      have hmod : n % 36 < 36 := Nat.mod_lt _ (by omega)
      rw [b36decodeList, b36val_b36digit _ hmod]
      have hnm : n / 36 * 36 + n % 36 = n := by omega
      simp [hnm]

/-- Each recursive step only prepends digits. -/
theorem intToBase36Go_length_ge :
    ∀ fuel n ds, ds.length ≤ (intToBase36Go fuel n ds).length := by
  intro fuel
  induction fuel with
  | zero => intro n ds; simp [intToBase36Go]
  | succ fuel ih =>
    intro n ds
    by_cases hn : n = 0
    · simp [intToBase36Go, hn]
    · rw [intToBase36Go, if_neg hn]
      have := ih (n / 36) (b36digit (n % 36) :: ds)
      simp at this
      omega

theorem intToBase36Go_length_le :
    ∀ k fuel n ds, n < 36 ^ k →
      (intToBase36Go fuel n ds).length ≤ k + ds.length := by
  intro k
  induction k with
  | zero =>
    intro fuel n ds h
    have : n = 0 := by simpa using h
    subst this
    cases fuel <;> simp [intToBase36Go]
  | succ k ih =>
    intro fuel n ds h
    cases fuel with
    | zero => simp [intToBase36Go]
    | succ fuel =>
      by_cases hn : n = 0
      · simp [intToBase36Go, hn]
      · rw [intToBase36Go, if_neg hn]
        have hdiv : n / 36 < 36 ^ k := by
          rw [Nat.div_lt_iff_lt_mul (by omega)]
          calc n < 36 ^ (k + 1) := h
            _ = 36 ^ k * 36 := by rw [Nat.pow_succ]
        have := ih fuel (n / 36) (b36digit (n % 36) :: ds) hdiv
        simp at this
        omega

/-- Round trip: decoding the base-36 rendering of `n` recovers `n`, for
any `n` small enough to pass Django's 13-character guard. -/
theorem base36_to_int_int_to_base36 (n : Nat) (h : n < 36 ^ 13) :
    base36_to_int (int_to_base36 n) = some n := by
  unfold base36_to_int int_to_base36
  by_cases hn : n = 0
  · subst hn; decide
  · rw [if_neg hn]
    have hlen1 : 1 ≤ (intToBase36Go (n + 1) n []).length := by
      have h0 : ¬ intToBase36Go (n + 1) n [] = [] := by
        rw [intToBase36Go, if_neg hn]
        intro hcontra
        have := intToBase36Go_length_ge n (n / 36) [b36digit (n % 36)]
        rw [hcontra] at this
        simp at this
      cases hx : intToBase36Go (n + 1) n [] with
      | nil => exact absurd hx h0
      | cons a l => simp
    have hlen13 : (intToBase36Go (n + 1) n []).length ≤ 13 := by
      have := intToBase36Go_length_le 13 (n + 1) n [] h
      simpa using this
    rw [if_neg (by omega)]
    rw [b36decodeList_intToBase36Go (n + 1) n [] (by omega)]
    rfl

/-! ## Python `str.split(sep)` and `sep.join(...)` for one-character
separators, as used by both token generators to take tokens apart. -/

/-- Worker for `splitOnChar`: `cur` holds the (reversed) characters of the
current segment. -/
def splitOnCharAux (sep : Char) : Str → Str → List Str
  | cur, [] => [cur.reverse]
  | cur, c :: cs =>
    if c = sep then cur.reverse :: splitOnCharAux sep [] cs
    else splitOnCharAux sep (c :: cur) cs

/-- Python `s.split(sep)` for a one-character separator `sep` (no maxsplit):
`"a:b".split(':') = ["a","b"]`, `"".split(':') = [""]`. -/
def splitOnChar (sep : Char) (s : Str) : List Str :=
  splitOnCharAux sep [] s

/-- Python `sep.join(parts)` for a one-character separator. -/
def joinChar (sep : Char) : List Str → Str
  | [] => []
  | [p] => p
  | p :: ps => p ++ sep :: joinChar sep ps

theorem charFree_cons {c x : Char} {s : Str} :
    charFree c (x :: s) = true ↔ x ≠ c ∧ charFree c s = true := by
  simp [charFree]

theorem splitOnCharAux_no_sep (sep : Char) :
    ∀ s cur, charFree sep s = true →
      splitOnCharAux sep cur s = [cur.reverse ++ s] := by
  intro s
  induction s with
  | nil => intro cur _; simp [splitOnCharAux]
  | cons c cs ih =>
    intro cur h
    obtain ⟨hc, hcs⟩ := charFree_cons.mp h
    rw [splitOnCharAux, if_neg hc, ih (c :: cur) hcs]
    simp

theorem splitOnCharAux_append (sep : Char) :
    ∀ a cur rest, charFree sep a = true →
      splitOnCharAux sep cur (a ++ sep :: rest) =
        (cur.reverse ++ a) :: splitOnCharAux sep [] rest := by
  intro a
  induction a with
  | nil => intro cur rest _; simp [splitOnCharAux]
  | cons c cs ih =>
    intro cur rest h
    obtain ⟨hc, hcs⟩ := charFree_cons.mp h
    rw [List.cons_append, splitOnCharAux, if_neg hc, ih (c :: cur) rest hcs]
    simp

/-- Splitting `a ++ sep ++ b` with `a`, `b` separator-free yields the two
segments. -/
theorem splitOnChar_two (sep : Char) (a b : Str)
    (ha : charFree sep a = true) (hb : charFree sep b = true) :
    splitOnChar sep (a ++ sep :: b) = [a, b] := by
  unfold splitOnChar
  rw [splitOnCharAux_append sep a [] b ha]
  simp [splitOnCharAux_no_sep sep b [] hb]

/-- Splitting `a ++ sep ++ b ++ sep ++ c` with separator-free segments
yields the three segments. -/
theorem splitOnChar_three (sep : Char) (a b c : Str)
    (ha : charFree sep a = true) (hb : charFree sep b = true)
    (hc : charFree sep c = true) :
    splitOnChar sep (a ++ sep :: (b ++ sep :: c)) = [a, b, c] := by
  unfold splitOnChar
  rw [splitOnCharAux_append sep a [] (b ++ sep :: c) ha,
    splitOnCharAux_append sep b [] c hb]
  simp [splitOnCharAux_no_sep sep c [] hc]

/-- Python's `sep in s` membership test. -/
theorem mem_append_sep (sep : Char) (a b : Str) :
    sep ∈ a ++ sep :: b := by
  simp

/-- Python `c in s` membership test on strings. -/
def containsChar (c : Char) (s : Str) : Bool :=
  !(charFree c s)

theorem charFree_append (c : Char) (a b : Str) :
    charFree c (a ++ b) = (charFree c a && charFree c b) := by
  simp [charFree]

theorem containsChar_append_self (c : Char) (a b : Str) :
    containsChar c (a ++ c :: b) = true := by
  simp [containsChar, charFree]

/-! ## The `User` model (apps/authentication/models.py)

Only the authentication/security fields used by the claims are embedded.
`password` stores the (hashed) credential; `check_password` becomes an
equality test on it.  Times are `Nat` Unix seconds; `save()` becomes
returning the updated record. -/

/-- Security-relevant fields of `apps.authentication.models.User`. -/
structure User where
  id : Nat
  username : Str
  email : Str
  password : Str
  email_verified : Bool
  email_verification_token : Str
  password_reset_token : Str
  password_reset_expires : Option Nat
  failed_login_attempts : Nat
  account_locked_until : Option Nat
  is_active : Bool
  last_login_ip : Str
  deriving Repr, DecidableEq

namespace User

/-- Embedding of `User.is_account_locked`: `account_locked_until` unset means not
locked; otherwise locked iff `now < account_locked_until`. -/
def is_account_locked (u : User) (now : Nat) : Bool :=
  match u.account_locked_until with
  | none => false
  | some t => now < t

/-- Embedding of `User.lock_account(duration_minutes=15)`: sets
`account_locked_until = now + duration_minutes` minutes. -/
def lock_account (u : User) (now : Nat) (duration_minutes : Nat := 15) : User :=
  { u with account_locked_until := some (now + duration_minutes * 60) }

/-- Embedding of `User.unlock_account`. -/
def unlock_account (u : User) : User :=
  { u with account_locked_until := none, failed_login_attempts := 0 }

/-- Embedding of `User.increment_failed_login_attempts(max_attempts=7)`:
increments the counter, locks when the counter reaches `max_attempts`, and
returns whether this call locked the account. -/
def increment_failed_login_attempts (u : User) (now : Nat)
    (max_attempts : Nat := 7) : Bool × User :=
  let u := { u with failed_login_attempts := u.failed_login_attempts + 1 }
  if max_attempts ≤ u.failed_login_attempts then
    (true, u.lock_account now)
  else
    (false, u)

/-- Embedding of `User.reset_failed_login_attempts`. -/
def reset_failed_login_attempts (u : User) : User :=
  { u with failed_login_attempts := 0 }

/-- Embedding of `User.clear_password_reset_token`. -/
def clear_password_reset_token (u : User) : User :=
  { u with password_reset_token := [], password_reset_expires := none }

/-- Django's `check_password` on the modelled credential field. -/
def check_password (u : User) (pw : Str) : Bool :=
  pw == u.password

end User

/-! ## Token generators (apps/authentication/tokens.py)

`secrets.token_urlsafe(32)` is modelled by an explicit `rand` argument
(URL-safe base64, hence colon-free).  The truncated SHA-256 signature
`hashlib.sha256(...).hexdigest()[:16]` is an abstract function
`sigHash : Str → Str` (hex output, hence colon-free); the code only relies
on it being deterministic.  `settings.SECRET_KEY` is the argument
`secretKey`.  `f"{n}"` on an integer is `natRepr`. -/

/-- Decimal rendering of a natural number, Python `f"{n}"`. -/
def natRepr (n : Nat) : Str := (Nat.repr n).toList

namespace EmailVerificationTokenGenerator

/-- Value of `self.token_lifetime = timedelta(hours=24)` in seconds. -/
def token_lifetime : Nat := 24 * 60 * 60

/-- The signed payload `f"{token}:{user.id}:{user.email}:{timestamp}:{secret_key}"`
(the `user_data` f-string inlined). -/
def sigInput (rand : Str) (u : User) (ts : Nat) (secretKey : Str) : Str :=
  rand ++ ':' :: (natRepr u.id ++ ':' :: (u.email ++ ':' :: (natRepr ts ++ ':' :: secretKey)))

/-- Embedding of `EmailVerificationTokenGenerator.generate_token`: returns
`f"{token}:{int_to_base36(timestamp)}:{signature}"`. -/
def generate_token (sigHash : Str → Str) (secretKey : Str) (u : User)
    (rand : Str) (now : Nat) : Str :=
  rand ++ ':' :: (int_to_base36 now ++ ':' :: sigHash (sigInput rand u now secretKey))

/-- Embedding of `EmailVerificationTokenGenerator.validate_token`: splits on `':'`,
requires exactly three parts, decodes the base-36 timestamp, rejects when
the token is older than `token_lifetime`, then recomputes and compares the
signature.  Decode failures (Python `ValueError`) return `false`. -/
def validate_token (sigHash : Str → Str) (secretKey : Str) (u : User)
    (token : Str) (now : Nat) : Bool :=
  match splitOnChar ':' token with
  | [token_part, timestamp_b36, signature] =>
    match base36_to_int timestamp_b36 with
    | none => false
    | some timestamp =>
      if token_lifetime < now - timestamp then false
      else signature == sigHash (sigInput token_part u timestamp secretKey)
  | _ => false

/-- Embedding of `EmailVerificationTokenGenerator.is_token_expired`: same parsing,
without the identity; malformed tokens count as expired. -/
def is_token_expired (token : Str) (now : Nat) : Bool :=
  match splitOnChar ':' token with
  | [_, timestamp_b36, _] =>
    match base36_to_int timestamp_b36 with
    | none => true
    | some timestamp => decide (token_lifetime < now - timestamp)
  | _ => true

end EmailVerificationTokenGenerator

/-! ## Django's base `PasswordResetTokenGenerator`

The repository's generator extends
`django.contrib.auth.tokens.PasswordResetTokenGenerator` and calls its
`make_token` / `check_token`.  Those library methods are embedded here:
a token is `f"{base36(ts)}-{hash}"` where the hash covers the user's pk,
password hash and email plus the timestamp; `check_token` re-derives the
token for the embedded timestamp, compares, and enforces
`PASSWORD_RESET_TIMEOUT`.  The keyed hash is the abstract `dhash`. -/

namespace DjangoTokens

/-- Django's default `settings.PASSWORD_RESET_TIMEOUT` (3 days in seconds). -/
def PASSWORD_RESET_TIMEOUT : Nat := 259200

/-- Payload of Django's `_make_hash_value`: pk, password hash, email and
timestamp concatenated. -/
def hashValue (u : User) (ts : Nat) : Str :=
  natRepr u.id ++ u.password ++ u.email ++ natRepr ts

/-- Django's `_make_token_with_timestamp`. -/
def make_token_with_timestamp (dhash : Str → Str) (u : User) (ts : Nat) : Str :=
  int_to_base36 ts ++ '-' :: dhash (hashValue u ts)

/-- Django's `PasswordResetTokenGenerator.make_token`. -/
def make_token (dhash : Str → Str) (u : User) (now : Nat) : Str :=
  make_token_with_timestamp dhash u now

/-- Django's `PasswordResetTokenGenerator.check_token`: unpacks
`ts_b36, _ = token.split("-")` (any other arity raises, caught as `false`),
decodes the timestamp, compares against the re-derived token and checks the
timeout. -/
def check_token (dhash : Str → Str) (u : User) (token : Str) (now : Nat) : Bool :=
  match splitOnChar '-' token with
  | [ts_b36, _] =>
    match base36_to_int ts_b36 with
    | none => false
    | some ts =>
      if make_token_with_timestamp dhash u ts == token then
        decide (now - ts ≤ PASSWORD_RESET_TIMEOUT)
      else false
  | _ => false

end DjangoTokens

namespace PasswordResetTokenGenerator

/-- Value of `self.token_lifetime = timedelta(hours=1)` in seconds. -/
def token_lifetime : Nat := 60 * 60

/-- Embedding of `PasswordResetTokenGenerator.generate_token_with_expiry`: wraps
Django's base token as `f"{base_token}:{int_to_base36(timestamp)}"` and
returns it with the expiry time `now + token_lifetime`. -/
def generate_token_with_expiry (dhash : Str → Str) (u : User) (now : Nat) :
    Str × Nat :=
  (DjangoTokens.make_token dhash u now ++ ':' :: int_to_base36 now,
   now + token_lifetime)

/-- Embedding of `PasswordResetTokenGenerator.validate_token_with_expiry`: tokens
without `':'` fall back to Django's `check_token`; otherwise the last
segment is the base-36 timestamp (expiry check), and the re-joined leading
segments are validated with Django's `check_token`.  Decode failures
return `false`. -/
def validate_token_with_expiry (dhash : Str → Str) (u : User) (token : Str)
    (now : Nat) : Bool :=
  if containsChar ':' token then
    let parts := splitOnChar ':' token
    if parts.length < 2 then false
    else
      let base_token := joinChar ':' parts.dropLast
      match base36_to_int (parts.getLastD []) with
      | none => false
      | some timestamp =>
        if token_lifetime < now - timestamp then false
        else DjangoTokens.check_token dhash u base_token now
  else
    DjangoTokens.check_token dhash u token now

/-- Embedding of `PasswordResetTokenGenerator.is_token_expired`: legacy tokens
without a timestamp segment are judged by length (shorter than 10 is
expired, otherwise assumed valid); enhanced tokens check the embedded
timestamp, decode failures counting as expired. -/
def is_token_expired (token : Str) (now : Nat) : Bool :=
  if containsChar ':' token then
    let parts := splitOnChar ':' token
    if parts.length < 2 then true
    else
      match base36_to_int (parts.getLastD []) with
      | none => true
      | some timestamp => decide (token_lifetime < now - timestamp)
  else
    decide (token.length < 10)

end PasswordResetTokenGenerator

/-! ## Claims C5 and C8: token round-trip, expiry, malformed tokens -/

/-- Concrete identity used by witnesses. -/
def sampleUser : User :=
  { id := 1
  , username := "alice".toList
  , email := "a@x.com".toList
  , password := "pbkdf2hash".toList
  , email_verified := false
  , email_verification_token := []
  , password_reset_token := []
  , password_reset_expires := none
  , failed_login_attempts := 0
  , account_locked_until := none
  , is_active := true
  , last_login_ip := [] }

/-- The generated email-verification token splits back into its three parts. -/
theorem ev_generate_split (sigHash : Str → Str) (secretKey rand : Str)
    (u : User) (now : Nat)
    (hrand : charFree ':' rand = true)
    (hsig : ∀ s, charFree ':' (sigHash s) = true) :
    splitOnChar ':' (EmailVerificationTokenGenerator.generate_token sigHash secretKey u rand now) =
      [rand, int_to_base36 now,
        sigHash (EmailVerificationTokenGenerator.sigInput rand u now secretKey)] := by
  unfold EmailVerificationTokenGenerator.generate_token
  exact splitOnChar_three ':' _ _ _ hrand (int_to_base36_no_colon now) (hsig _)

/-- Django's base token splits back into timestamp and hash on `'-'`. -/
theorem django_make_token_split (dhash : Str → Str) (u : User) (ts : Nat)
    (hdhd : ∀ s, charFree '-' (dhash s) = true) :
    splitOnChar '-' (DjangoTokens.make_token_with_timestamp dhash u ts) =
      [int_to_base36 ts, dhash (DjangoTokens.hashValue u ts)] := by
  unfold DjangoTokens.make_token_with_timestamp
  exact splitOnChar_two '-' _ _ (int_to_base36_no_dash ts) (hdhd _)

/-- Django's `check_token` accepts a token it just made, at any `now` within
the Django timeout of the embedded timestamp. -/
theorem django_check_token_make_token (dhash : Str → Str) (u : User)
    (ts now : Nat)
    (hdhd : ∀ s, charFree '-' (dhash s) = true)
    (hts : ts < 36 ^ 13)
    (htime : now - ts ≤ DjangoTokens.PASSWORD_RESET_TIMEOUT) :
    DjangoTokens.check_token dhash u (DjangoTokens.make_token dhash u ts) now = true := by
  unfold DjangoTokens.check_token DjangoTokens.make_token
  rw [django_make_token_split dhash u ts hdhd]
  simp [base36_to_int_int_to_base36 ts hts, htime]

/-- C5: for every identity and both token kinds, validating a freshly
generated token succeeds immediately, and fails once the configured
lifetime (24h for email verification, 1h for password reset) has elapsed.
Hypotheses record environmental facts about the concrete Python values:
`secrets.token_urlsafe` output and hex digests contain no `':'` (and no
`'-'` for Django's hash), and a Unix timestamp fits in 13 base-36 digits. -/
theorem C5_token_roundtrip_and_expiry
    (sigHash dhash : Str → Str) (secretKey rand : Str) (u : User) (now later : Nat)
    (hrand : charFree ':' rand = true)
    (hsig : ∀ s, charFree ':' (sigHash s) = true)
    (hdhc : ∀ s, charFree ':' (dhash s) = true)
    (hdhd : ∀ s, charFree '-' (dhash s) = true)
    (hnow : now < 36 ^ 13) :
    (EmailVerificationTokenGenerator.validate_token sigHash secretKey u
        (EmailVerificationTokenGenerator.generate_token sigHash secretKey u rand now) now = true)
    ∧ (now + EmailVerificationTokenGenerator.token_lifetime < later →
        EmailVerificationTokenGenerator.validate_token sigHash secretKey u
          (EmailVerificationTokenGenerator.generate_token sigHash secretKey u rand now) later = false)
    ∧ (PasswordResetTokenGenerator.validate_token_with_expiry dhash u
        (PasswordResetTokenGenerator.generate_token_with_expiry dhash u now).1 now = true)
    ∧ (now + PasswordResetTokenGenerator.token_lifetime < later →
        PasswordResetTokenGenerator.validate_token_with_expiry dhash u
          (PasswordResetTokenGenerator.generate_token_with_expiry dhash u now).1 later = false) := by
  have hbase_colonfree :
      charFree ':' (DjangoTokens.make_token dhash u now) = true := by
    unfold DjangoTokens.make_token DjangoTokens.make_token_with_timestamp
    rw [charFree_append, int_to_base36_no_colon now,
      charFree_cons.mpr ⟨by decide, hdhc (DjangoTokens.hashValue u now)⟩]
    rfl
  have hsplit2 :
      splitOnChar ':' ((PasswordResetTokenGenerator.generate_token_with_expiry dhash u now).1) =
        [DjangoTokens.make_token dhash u now, int_to_base36 now] := by
    unfold PasswordResetTokenGenerator.generate_token_with_expiry
    exact splitOnChar_two ':' _ _ hbase_colonfree (int_to_base36_no_colon now)
  refine ⟨?_, ?_, ?_, ?_⟩
  · unfold EmailVerificationTokenGenerator.validate_token
    rw [ev_generate_split sigHash secretKey rand u now hrand hsig]
    simp [base36_to_int_int_to_base36 now hnow, Nat.sub_self]
  · intro hlate
    unfold EmailVerificationTokenGenerator.validate_token
    rw [ev_generate_split sigHash secretKey rand u now hrand hsig]
    simp only [base36_to_int_int_to_base36 now hnow]
    rw [if_pos]
    unfold EmailVerificationTokenGenerator.token_lifetime at hlate ⊢
    omega
  · unfold PasswordResetTokenGenerator.validate_token_with_expiry
    rw [if_pos, hsplit2]
    · simp only [List.length_cons, List.length_nil]
      rw [if_neg (by omega)]
      rw [show ([DjangoTokens.make_token dhash u now, int_to_base36 now] : List Str).getLastD [] =
            int_to_base36 now from rfl]
      rw [base36_to_int_int_to_base36 now hnow]
      rw [show ([DjangoTokens.make_token dhash u now, int_to_base36 now] : List Str).dropLast =
            [DjangoTokens.make_token dhash u now] from rfl]
      simp only [joinChar]
      rw [if_neg (by simp [Nat.sub_self])]
      exact django_check_token_make_token dhash u now now hdhd hnow (by simp [Nat.sub_self])
    · unfold PasswordResetTokenGenerator.generate_token_with_expiry
      exact containsChar_append_self ':' _ _
  · intro hlate
    unfold PasswordResetTokenGenerator.validate_token_with_expiry
    rw [if_pos, hsplit2]
    · simp only [List.length_cons, List.length_nil]
      rw [if_neg (by omega)]
      rw [show ([DjangoTokens.make_token dhash u now, int_to_base36 now] : List Str).getLastD [] =
            int_to_base36 now from rfl]
      rw [base36_to_int_int_to_base36 now hnow]
      have hexp : PasswordResetTokenGenerator.token_lifetime < later - now := by
        unfold PasswordResetTokenGenerator.token_lifetime at hlate ⊢
        omega
      simp [hexp]
    · unfold PasswordResetTokenGenerator.generate_token_with_expiry
      exact containsChar_append_self ':' _ _

/-- Witness for C5 at a concrete identity, secret, hash and clock. -/
theorem C5_token_roundtrip_and_expiry_witness :
    (EmailVerificationTokenGenerator.validate_token (fun _ => "aa".toList) "k".toList sampleUser
        (EmailVerificationTokenGenerator.generate_token (fun _ => "aa".toList) "k".toList sampleUser "r".toList 5) 5 = true)
    ∧ (EmailVerificationTokenGenerator.validate_token (fun _ => "aa".toList) "k".toList sampleUser
        (EmailVerificationTokenGenerator.generate_token (fun _ => "aa".toList) "k".toList sampleUser "r".toList 5) 100000 = false)
    ∧ (PasswordResetTokenGenerator.validate_token_with_expiry (fun _ => "bb".toList) sampleUser
        (PasswordResetTokenGenerator.generate_token_with_expiry (fun _ => "bb".toList) sampleUser 5).1 5 = true)
    ∧ (PasswordResetTokenGenerator.validate_token_with_expiry (fun _ => "bb".toList) sampleUser
        (PasswordResetTokenGenerator.generate_token_with_expiry (fun _ => "bb".toList) sampleUser 5).1 100000 = false) := by
  have T := C5_token_roundtrip_and_expiry (fun _ => "aa".toList) (fun _ => "bb".toList)
    "k".toList "r".toList sampleUser 5 100000
    (by decide)
    (by intro s; show charFree ':' ("aa".toList) = true; decide)
    (by intro s; show charFree ':' ("bb".toList) = true; decide)
    (by intro s; show charFree '-' ("bb".toList) = true; decide)
    (by norm_num)
  exact ⟨T.1, T.2.1 (by decide), T.2.2.1, T.2.2.2 (by decide)⟩

/-- C8: malformed tokens are rejected, never raised.  Both validators are
total functions in this embedding (every Python `ValueError`/`TypeError`
path is an explicit `false` branch), and a token whose `':'`-split does not
have the required arity, or whose timestamp segment does not decode as
base 36, makes `validate_token` / `validate_token_with_expiry` return
`false` for every identity. -/
theorem C8_malformed_tokens_rejected
    (sigHash dhash : Str → Str) (secretKey : Str) (u : User) (token : Str)
    (now : Nat) :
    ((splitOnChar ':' token).length ≠ 3 →
      EmailVerificationTokenGenerator.validate_token sigHash secretKey u token now = false)
    ∧ (∀ a b c, splitOnChar ':' token = [a, b, c] → base36_to_int b = none →
      EmailVerificationTokenGenerator.validate_token sigHash secretKey u token now = false)
    ∧ (containsChar ':' token = true →
      base36_to_int ((splitOnChar ':' token).getLastD []) = none →
      PasswordResetTokenGenerator.validate_token_with_expiry dhash u token now = false) := by
  refine ⟨?_, ?_, ?_⟩
  · intro hlen
    unfold EmailVerificationTokenGenerator.validate_token
    cases h1 : splitOnChar ':' token with
    | nil => rfl
    | cons a t1 =>
      cases t1 with
      | nil => rfl
      | cons b t2 =>
        cases t2 with
        | nil => rfl
        | cons c t3 =>
          cases t3 with
          | nil => rw [h1] at hlen; simp at hlen
          | cons d t4 => rfl
  · intro a b c h1 h2
    unfold EmailVerificationTokenGenerator.validate_token
    rw [h1]
    simp [h2]
  · intro hct hdec
    unfold PasswordResetTokenGenerator.validate_token_with_expiry
    rw [if_pos hct]
    by_cases hlen : (splitOnChar ':' token).length < 2
    · simp [hlen]
    · rw [List.getLastD_eq_getLast?] at hdec
      simp [hlen, hdec]

/-- Witness for C8 on concrete malformed tokens: `"ab"` has one segment,
`"a:b:c"` has a non-base36 middle segment (`'!'` is no digit, and so is
`'b'`... the segment `"!"` fails to decode), and `"x:!"` has a timestamp
segment that does not decode. -/
theorem C8_malformed_tokens_rejected_witness :
    (EmailVerificationTokenGenerator.validate_token (fun _ => []) [] sampleUser "ab".toList 0 = false)
    ∧ (EmailVerificationTokenGenerator.validate_token (fun _ => []) [] sampleUser "a:!:c".toList 0 = false)
    ∧ (PasswordResetTokenGenerator.validate_token_with_expiry (fun _ => []) sampleUser "x:!".toList 0 = false) :=
  ⟨(C8_malformed_tokens_rejected (fun _ => []) (fun _ => []) [] sampleUser "ab".toList 0).1
      (by decide),
   (C8_malformed_tokens_rejected (fun _ => []) (fun _ => []) [] sampleUser "a:!:c".toList 0).2.1
      "a".toList "!".toList "c".toList (by decide) (by decide),
   (C8_malformed_tokens_rejected (fun _ => []) (fun _ => []) [] sampleUser "x:!".toList 0).2.2
      (by decide) (by decide)⟩

/-! ## Claim C6: lockout threshold -/

/-- Iterated consecutive calls to `increment_failed_login_attempts` (default
`max_attempts = 7`), one per clock value in `ts`; returns the list of
"locked this time" results and the final user record. -/
def incSequence (u : User) : List Nat → List Bool × User
  | [] => ([], u)
  | t :: ts =>
    let r := u.increment_failed_login_attempts t
    let rest := incSequence r.2 ts
    (r.1 :: rest.1, rest.2)

/-- C6: from a zero failure counter, seven consecutive calls to
`increment_failed_login_attempts` return `false` six times and `true` on
the seventh, which sets `account_locked_until` to that call's `now`
plus 15 minutes; and `reset_failed_login_attempts` zeroes the counter of
any user record. -/
theorem C6_lockout_threshold (u : User) (ts : List Nat)
    (h0 : u.failed_login_attempts = 0) (h7 : ts.length = 7) :
    (incSequence u ts).1 = [false, false, false, false, false, false, true]
    ∧ (incSequence u ts).2.account_locked_until = some (ts.getLastD 0 + 15 * 60)
    ∧ (incSequence u ts).2.failed_login_attempts = 7
    ∧ ∀ v : User, (User.reset_failed_login_attempts v).failed_login_attempts = 0 := by
  rcases ts with _ | ⟨t1, _ | ⟨t2, _ | ⟨t3, _ | ⟨t4, _ | ⟨t5, _ | ⟨t6, _ | ⟨t7, _ | ⟨t8, rest⟩⟩⟩⟩⟩⟩⟩⟩ <;>
    simp only [List.length_nil, List.length_cons] at h7 <;> try omega
  refine ⟨?_, ?_, ?_, ?_⟩ <;>
    simp [incSequence, User.increment_failed_login_attempts, User.lock_account,
      User.reset_failed_login_attempts, h0, List.getLastD]

/-- Witness for C6 at a concrete user and seven concrete clock values. -/
theorem C6_lockout_threshold_witness :
    (incSequence sampleUser [10, 20, 30, 40, 50, 60, 70]).1 =
      [false, false, false, false, false, false, true]
    ∧ (incSequence sampleUser [10, 20, 30, 40, 50, 60, 70]).2.account_locked_until =
      some ([10, 20, 30, 40, 50, 60, 70].getLastD 0 + 15 * 60)
    ∧ (incSequence sampleUser [10, 20, 30, 40, 50, 60, 70]).2.failed_login_attempts = 7
    ∧ ∀ v : User, (User.reset_failed_login_attempts v).failed_login_attempts = 0 :=
  C6_lockout_threshold sampleUser [10, 20, 30, 40, 50, 60, 70] (by decide) (by decide)

/-! ## Rate limiter (apps/authentication/middleware.py, RateLimitMiddleware)

The Django cache is modelled as two total maps keyed by
`(endpoint, client_id)`: the sliding list of request timestamps and the
optional block-until time.  Cache TTLs are not modelled: the code
re-filters timestamps by window and re-checks `blocked_until` against the
clock on every call, so an entry the TTL would have evicted is ignored by
the same comparisons.  `time.time()` floats become `Nat` seconds
(`now - window` truncates at zero, which only matters for clocks earlier
than one window after the epoch). -/

/-- Per-endpoint configuration record of `RATE_LIMITS`. -/
structure RLConfig where
  requests : Nat
  window : Nat
  block_duration : Nat
  deriving Repr, DecidableEq

/-- Cache state of the rate limiter, keyed by `(endpoint, client_id)`. -/
structure RLState where
  reqs : String × String → List Nat
  blockedUntil : String × String → Option Nat

/-- The empty cache. -/
def emptyRL : RLState :=
  { reqs := fun _ => [], blockedUntil := fun _ => none }

namespace RateLimitMiddleware

/-- Embedding of the `RATE_LIMITS` class table. -/
def RATE_LIMITS (endpoint : String) : Option RLConfig :=
  if endpoint = "/api/v1/auth/login/" then
    some { requests := 10, window := 900, block_duration := 900 }
  else if endpoint = "/api/v1/auth/register/" then
    some { requests := 5, window := 3600, block_duration := 3600 }
  else if endpoint = "/api/v1/auth/password-reset/" then
    some { requests := 3, window := 3600, block_duration := 3600 }
  else if endpoint = "/api/v1/auth/verify-email/" then
    some { requests := 10, window := 3600, block_duration := 1800 }
  else none

/-- Steps (2)-(4) of `check_rate_limit` after the block-record check:
purge timestamps outside the window, either create a block record and
report `block_duration`, or append the current time. -/
def checkWindow (config : RLConfig) (key : String × String) (now : Nat)
    (st : RLState) : (Bool × Nat) × RLState :=
  let current_requests := st.reqs key
  let window_start := now - config.window
  let recent_requests := current_requests.filter (fun t => window_start < t)
  if config.requests ≤ recent_requests.length then
    ((true, config.block_duration),
      { st with blockedUntil := fun k =>
          if k = key then some (now + config.block_duration) else st.blockedUntil k })
  else
    ((false, 0),
      { st with reqs := fun k =>
          if k = key then recent_requests ++ [now] else st.reqs k })

/-- Embedding of `RateLimitMiddleware.check_rate_limit`.  `none` models the
`KeyError` on an endpoint without configuration (never reached from
`process_request`).  An active block record returns the remaining seconds;
an expired one is deleted before the window is consulted. -/
def check_rate_limit (endpoint client_id : String) (now : Nat)
    (st : RLState) : Option ((Bool × Nat) × RLState) :=
  match RATE_LIMITS endpoint with
  | none => none
  | some config =>
    let key := (endpoint, client_id)
    match st.blockedUntil key with
    | some blocked_until =>
      if now < blocked_until then
        some ((true, blocked_until - now), st)
      else
        some (checkWindow config key now
          { st with blockedUntil := fun k =>
              if k = key then none else st.blockedUntil k })
    | none => some (checkWindow config key now st)

end RateLimitMiddleware

/-- Repeated `check_rate_limit` calls for one client, one per clock value;
collects the per-call results (each `none` would mean an unconfigured
endpoint). -/
def runChecks (endpoint client_id : String) :
    List Nat → RLState → List (Option (Bool × Nat)) × RLState
  | [], st => ([], st)
  | t :: ts, st =>
    match RateLimitMiddleware.check_rate_limit endpoint client_id t st with
    | none =>
      let r := runChecks endpoint client_id ts st
      (none :: r.1, r.2)
    | some (res, st') =>
      let r := runChecks endpoint client_id ts st'
      (some res :: r.1, r.2)

/-- Loop invariant for C7: while the key holds fewer than `requests`
timestamps, all within the window of each call, every check passes, the
timestamp list grows by exactly the call times, no block record appears,
and no other key is touched. -/
theorem runChecks_under_limit (cfg : RLConfig) (e c : String)
    (hcfg : RateLimitMiddleware.RATE_LIMITS e = some cfg) (l : List Nat)
    (hwin : ∀ x ∈ l, ∀ y ∈ l, x - cfg.window < y) :
    ∀ ts prev st, prev ++ ts = l →
      st.reqs (e, c) = prev →
      st.blockedUntil (e, c) = none →
      prev.length + ts.length ≤ cfg.requests →
      (runChecks e c ts st).1 = ts.map (fun _ => some (false, 0))
      ∧ (runChecks e c ts st).2.reqs (e, c) = l
      ∧ (runChecks e c ts st).2.blockedUntil (e, c) = none
      ∧ ∀ k, k ≠ (e, c) →
          (runChecks e c ts st).2.reqs k = st.reqs k
          ∧ (runChecks e c ts st).2.blockedUntil k = st.blockedUntil k := by
  intro ts
  induction ts with
  | nil =>
    intro prev st hl hr hb _
    refine ⟨rfl, ?_, ?_, ?_⟩
    · simpa [runChecks, hr] using hl
    · simpa [runChecks] using hb
    · intro k _; exact ⟨rfl, rfl⟩
  | cons t ts ih =>
    intro prev st hl hr hb hlen
    have ht_mem : t ∈ l := hl ▸ List.mem_append_right prev (List.mem_cons_self t ts)
    have hfilter : prev.filter (fun x => decide (t - cfg.window < x)) = prev := by
      rw [List.filter_eq_self]
      intro p hp
      exact decide_eq_true (hwin t ht_mem p (hl ▸ List.mem_append_left _ hp))
    have hcount : ¬ cfg.requests ≤ prev.length := by
      simp only [List.length_cons] at hlen
      omega
    have hstep :
        RateLimitMiddleware.check_rate_limit e c t st =
          some ((false, 0),
            { st with reqs := fun k =>
                if k = (e, c) then prev ++ [t] else st.reqs k }) := by
      unfold RateLimitMiddleware.check_rate_limit RateLimitMiddleware.checkWindow
      rw [hcfg]
      simp only [hb, hr]
      rw [hfilter, if_neg hcount]
    rw [runChecks, hstep]
    have hih := ih (prev ++ [t])
      { st with reqs := fun k => if k = (e, c) then prev ++ [t] else st.reqs k }
      (by simpa using hl) (by simp) (by simpa using hb)
      (by simp only [List.length_append, List.length_cons, List.length_nil] at hlen ⊢; omega)
    refine ⟨?_, hih.2.1, hih.2.2.1, ?_⟩
    · simp [hih.1]
    · intro k hk
      have hfr := hih.2.2.2 k hk
      refine ⟨?_, hfr.2⟩
      rw [hfr.1]
      simp [if_neg hk]

/-- C7: on a configured endpoint, starting from an empty cache, exactly
`limit` checks within the window pass; the `(limit+1)`-th check in the same
window is blocked with `retry_after = block_duration`; and a different
`client_id` on the same endpoint is then still not blocked by the first
client's state. -/
theorem C7_rate_limit_boundary (cfg : RLConfig) (e c c2 : String)
    (ts : List Nat) (T T2 : Nat) (st0 : RLState)
    (hcfg : RateLimitMiddleware.RATE_LIMITS e = some cfg)
    (hpos : 0 < cfg.requests)
    (hlen : ts.length = cfg.requests)
    (hwin : ∀ x ∈ ts ++ [T], ∀ y ∈ ts ++ [T], x - cfg.window < y)
    (hr0 : st0.reqs (e, c) = [])
    (hb0 : st0.blockedUntil (e, c) = none)
    (hc2 : c2 ≠ c)
    (hr2 : st0.reqs (e, c2) = [])
    (hb2 : st0.blockedUntil (e, c2) = none) :
    (runChecks e c ts st0).1 = ts.map (fun _ => some (false, 0))
    ∧ ∃ st2,
        RateLimitMiddleware.check_rate_limit e c T (runChecks e c ts st0).2 =
          some ((true, cfg.block_duration), st2)
        ∧ ∃ st3,
            RateLimitMiddleware.check_rate_limit e c2 T2 st2 =
              some ((false, 0), st3) := by
  have hwin' : ∀ x ∈ ts, ∀ y ∈ ts, x - cfg.window < y := fun x hx y hy =>
    hwin x (List.mem_append_left _ hx) y (List.mem_append_left _ hy)
  have loop := runChecks_under_limit cfg e c hcfg ts hwin' ts [] st0 rfl hr0 hb0
    (by simp [hlen])
  have hkey2 : ((e, c2) : String × String) ≠ (e, c) := by simp [hc2]
  have hfilterT : ts.filter (fun x => decide (T - cfg.window < x)) = ts := by
    rw [List.filter_eq_self]
    intro p hp
    exact decide_eq_true
      (hwin T (List.mem_append_right _ (List.mem_singleton.mpr rfl)) p
        (List.mem_append_left _ hp))
  refine ⟨loop.1, ?_⟩
  have hstep2 :
      RateLimitMiddleware.check_rate_limit e c T (runChecks e c ts st0).2 =
        some ((true, cfg.block_duration),
          { (runChecks e c ts st0).2 with blockedUntil := fun k =>
              if k = (e, c) then (some (T + cfg.block_duration))
              else (runChecks e c ts st0).2.blockedUntil k }) := by
    unfold RateLimitMiddleware.check_rate_limit RateLimitMiddleware.checkWindow
    rw [hcfg]
    simp only [loop.2.2.1, loop.2.1]
    rw [hfilterT, if_pos (by omega)]
  refine ⟨_, hstep2, ?_⟩
  have hfr := loop.2.2.2 (e, c2) hkey2
  have hb2' :
      (if ((e, c2) : String × String) = (e, c)
        then (some (T + cfg.block_duration))
        else (runChecks e c ts st0).2.blockedUntil (e, c2)) = none := by
    rw [if_neg hkey2, hfr.2, hb2]
  have hr2' : (runChecks e c ts st0).2.reqs (e, c2) = [] := by
    rw [hfr.1, hr2]
  have hstep3 :
      RateLimitMiddleware.check_rate_limit e c2 T2
        { (runChecks e c ts st0).2 with blockedUntil := fun k =>
            if k = (e, c) then (some (T + cfg.block_duration))
            else (runChecks e c ts st0).2.blockedUntil k } =
      some ((false, 0),
        { (runChecks e c ts st0).2 with
            reqs := fun k =>
              if k = (e, c2) then [T2] else (runChecks e c ts st0).2.reqs k
            , blockedUntil := fun k =>
              if k = (e, c) then (some (T + cfg.block_duration))
              else (runChecks e c ts st0).2.blockedUntil k }) := by
    unfold RateLimitMiddleware.check_rate_limit RateLimitMiddleware.checkWindow
    rw [hcfg]
    simp only [hb2', hr2']
    rw [if_neg (by simp; omega)]
    simp
  exact ⟨_, hstep3⟩

/-- Witness for C7 on the login endpoint: ten checks pass, the eleventh is
blocked for `block_duration = 900` seconds, and a different client is not
blocked. -/
theorem C7_rate_limit_boundary_witness :
    (runChecks "/api/v1/auth/login/" "clientA" [1, 2, 3, 4, 5, 6, 7, 8, 9, 10] emptyRL).1 =
      [1, 2, 3, 4, 5, 6, 7, 8, 9, 10].map (fun _ => some (false, 0))
    ∧ ∃ st2,
        RateLimitMiddleware.check_rate_limit "/api/v1/auth/login/" "clientA" 11
          (runChecks "/api/v1/auth/login/" "clientA" [1, 2, 3, 4, 5, 6, 7, 8, 9, 10] emptyRL).2 =
          some ((true, 900), st2)
        ∧ ∃ st3,
            RateLimitMiddleware.check_rate_limit "/api/v1/auth/login/" "clientB" 12 st2 =
              some ((false, 0), st3) :=
  C7_rate_limit_boundary { requests := 10, window := 900, block_duration := 900 }
    "/api/v1/auth/login/" "clientA" "clientB" [1, 2, 3, 4, 5, 6, 7, 8, 9, 10] 11 12 emptyRL
    (by decide) (by decide) (by decide) (by decide)
    rfl rfl (by decide) rfl rfl

/-! ## Sessions and tokens (apps/authentication/session_service.py)

`UserSession` carries the fields the claims touch; `SecurityAuditLog`
writes are modelled as appends of the action tag to an `audit` list.  The
audit write is fallible (Python: `SecurityAuditLog.objects.create` may
raise); its success is the explicit `auditOk` argument, and a raised
exception is the `some OpError.auditFailed` component beside the resulting
database — already-executed writes persist (Django autocommit; none of
these functions runs in a transaction).  A JWT refresh token is
represented by its JTI claim, the only part these functions read; token
blacklisting tables are not consulted by any claim and the blacklist
lookup in `terminate_session` is wrapped in `try/except` in the source, so
it is a no-op here. -/

/-- Session row of `apps.authentication.models.UserSession`. -/
structure UserSession where
  id : Nat
  userId : Nat
  refresh_token_jti : String
  remember_me : Bool
  is_active : Bool
  last_activity : Nat
  expires_at : Nat
  deriving Repr, DecidableEq

namespace UserSession

/-- Embedding of `UserSession.is_expired`: `timezone.now() > expires_at`. -/
def is_expired (s : UserSession) (now : Nat) : Bool :=
  s.expires_at < now

/-- Embedding of `UserSession.deactivate`. -/
def deactivate (s : UserSession) : UserSession :=
  { s with is_active := false }

end UserSession

/-- Database state visible to the session service: session rows plus the
security audit log (action tags only). -/
structure AuthDb where
  sessions : List UserSession
  audit : List String
  deriving Repr, DecidableEq

/-- Exceptions the session service can raise in this embedding. -/
inductive OpError where
  | auditFailed
  deriving Repr, DecidableEq

/-- Django `save()` on one row: replace the row with primary key `sid`. -/
def updateById (store : List UserSession) (sid : Nat)
    (f : UserSession → UserSession) : List UserSession :=
  store.map (fun x => if x.id = sid then f x else x)

namespace SessionManager

/-- Embedding of `SessionManager.get_session_by_refresh_token`: the active
session bound to the JTI, if any (`refresh_token_jti` is a unique
column, so `objects.get` returns the sole match). -/
def get_session_by_refresh_token (jti : String) (store : List UserSession) :
    Option UserSession :=
  store.find? (fun s => s.refresh_token_jti == jti && s.is_active)

/-- Embedding of `SessionManager.update_session_activity`. -/
def update_session_activity (s : UserSession) (now : Nat) (db : AuthDb) : AuthDb :=
  { db with sessions :=
      updateById db.sessions s.id (fun x => { x with last_activity := now }) }

/-- Embedding of `SessionManager.create_session`: persists a new row with
`expires_at = now + 30d` under `remember_me` else `now + 7d`, then writes a
`session_created` audit entry.  Device metadata parsing is outside the
claims and elided; the fresh primary key is `newId`. -/
def create_session (userId : Nat) (jti : String) (remember_me : Bool)
    (now newId : Nat) (auditOk : Bool) (db : AuthDb) :
    Option OpError × UserSession × AuthDb :=
  let expires_at := if remember_me then now + 30 * 86400 else now + 7 * 86400
  let session : UserSession :=
    { id := newId, userId := userId, refresh_token_jti := jti
    , remember_me := remember_me, is_active := true
    , last_activity := now, expires_at := expires_at }
  let db1 := { db with sessions := db.sessions ++ [session] }
  if auditOk then
    (none, session, { db1 with audit := db1.audit ++ ["session_created"] })
  else
    (some OpError.auditFailed, session, db1)

/-- Embedding of `SessionManager.terminate_session`: best-effort blacklist
(no-op here), deactivate the row, then write a `session_terminated` audit
entry. -/
def terminate_session (s : UserSession) (auditOk : Bool) (db : AuthDb) :
    Option OpError × AuthDb :=
  let db1 := { db with sessions := updateById db.sessions s.id UserSession.deactivate }
  if auditOk then
    (none, { db1 with audit := db1.audit ++ ["session_terminated"] })
  else
    (some OpError.auditFailed, db1)

/-- Embedding of `SessionManager.refresh_session_token`: store the new JTI, bump
`last_activity`, extend `expires_at` by 30 days under `remember_me`, save,
then write a `token_refreshed` audit entry. -/
def refresh_session_token (s : UserSession) (newJti : String) (now : Nat)
    (auditOk : Bool) (db : AuthDb) : Option OpError × AuthDb :=
  let rotate : UserSession → UserSession := fun x =>
    let x := { x with refresh_token_jti := newJti, last_activity := now }
    if x.remember_me then { x with expires_at := now + 30 * 86400 } else x
  let db1 := { db with sessions := updateById db.sessions s.id rotate }
  if auditOk then
    (none, { db1 with audit := db1.audit ++ ["token_refreshed"] })
  else
    (some OpError.auditFailed, db1)

end SessionManager

/-- Result dictionary of `TokenManager.refresh_access_token` (the access
token string and lifetimes are opaque; the session id and the refresh
token identifier handed back are kept). -/
structure RefreshResult where
  session_id : Nat
  refresh_jti : String
  deriving Repr, DecidableEq

namespace TokenManager

/-- Embedding of `TokenManager.refresh_access_token`.  The argument `jti` is the
JTI of the presented refresh-token string; `rotationSupported` is the
runtime `hasattr(refresh_token, 'rotate')` capability check.  Any
exception inside the `try` block (in particular an audit-write failure in
`refresh_session_token`) is caught and mapped to `none`, with already
persisted writes kept. -/
def refresh_access_token (jti : String) (rotationSupported : Bool)
    (newJti : String) (now : Nat) (auditOk : Bool) (db : AuthDb) :
    Option RefreshResult × AuthDb :=
  match SessionManager.get_session_by_refresh_token jti db.sessions with
  | none => (none, db)
  | some session =>
    if session.is_expired now then (none, db)
    else if rotationSupported then
      match SessionManager.refresh_session_token session newJti now auditOk db with
      | (some _, db1) => (none, db1)
      | (none, db1) => (some { session_id := session.id, refresh_jti := newJti }, db1)
    else
      (some { session_id := session.id, refresh_jti := jti },
        SessionManager.update_session_activity session now db)

end TokenManager

/-! ## Claim C2: refresh-token rotation invalidates the old JTI -/

/-- After rewriting the bound session's JTI to `newJti ≠ old`, no active
session resolves for `old` any more, provided `refresh_token_jti` is
unique across rows (the database unique constraint). -/
theorem find_jti_after_update_none (old newJti : String)
    (store : List UserSession) (s : UserSession) (f : UserSession → UserSession)
    (hf : ∀ x, (f x).refresh_token_jti = newJti)
    (hjti : (store.map (fun x => x.refresh_token_jti)).Nodup)
    (hmem : s ∈ store) (hsold : s.refresh_token_jti = old)
    (hnew : newJti ≠ old) :
    SessionManager.get_session_by_refresh_token old (updateById store s.id f) = none := by
  unfold SessionManager.get_session_by_refresh_token
  refine List.find?_eq_none.mpr ?_
  intro y hy
  simp only [updateById, List.mem_map] at hy
  obtain ⟨x, hx, rfl⟩ := hy
  by_cases hid : x.id = s.id
  · simp [hid, hf x, hnew]
  · simp only [if_neg hid, Bool.and_eq_true, beq_iff_eq, not_and]
    intro hxold
    have hxs : x = s :=
      List.inj_on_of_nodup_map hjti hx hmem (by rw [hxold, hsold])
    exact absurd (congrArg UserSession.id hxs) hid

/-- A refresh presenting a JTI that resolves to no active session fails
closed, leaving the database unchanged. -/
theorem refresh_none_of_no_session (jti : String) (rot : Bool) (newJti : String)
    (now : Nat) (auditOk : Bool) (db : AuthDb)
    (h : SessionManager.get_session_by_refresh_token jti db.sessions = none) :
    TokenManager.refresh_access_token jti rot newJti now auditOk db = (none, db) := by
  unfold TokenManager.refresh_access_token
  rw [h]

/-- C2: when a refresh with rotation succeeds against the active, unexpired
session bound to `old`, the session's stored JTI becomes `newJti`, so the
old identifier resolves to no active session and a second refresh
presenting the old token returns `none` — it never succeeds twice. -/
theorem C2_stale_refresh_token_fails
    (old newJti : String) (now now2 : Nat) (db : AuthDb) (s : UserSession)
    (hjti : (db.sessions.map (fun x => x.refresh_token_jti)).Nodup)
    (hs : SessionManager.get_session_by_refresh_token old db.sessions = some s)
    (hexp : s.is_expired now = false)
    (hnew : newJti ≠ old) :
    (TokenManager.refresh_access_token old true newJti now true db).1.isSome = true
    ∧ SessionManager.get_session_by_refresh_token old
        (TokenManager.refresh_access_token old true newJti now true db).2.sessions = none
    ∧ (TokenManager.refresh_access_token old true newJti now2 true
        (TokenManager.refresh_access_token old true newJti now true db).2).1 = none := by
  have hsmem : s ∈ db.sessions := List.mem_of_find?_eq_some hs
  have hspred := List.find?_some hs
  simp only [Bool.and_eq_true, beq_iff_eq] at hspred
  obtain ⟨hsold, hsact⟩ := hspred
  have hstep :
      TokenManager.refresh_access_token old true newJti now true db =
        (some { session_id := s.id, refresh_jti := newJti },
          { db with
              sessions := updateById db.sessions s.id (fun x =>
                let x1 : UserSession :=
                  { x with refresh_token_jti := newJti, last_activity := now }
                if x1.remember_me then { x1 with expires_at := now + 30 * 86400 } else x1)
              , audit := db.audit ++ ["token_refreshed"] }) := by
    unfold TokenManager.refresh_access_token SessionManager.refresh_session_token
    rw [hs]
    simp [hexp]
  have hafter : SessionManager.get_session_by_refresh_token old
      (TokenManager.refresh_access_token old true newJti now true db).2.sessions = none := by
    rw [hstep]
    exact find_jti_after_update_none old newJti db.sessions s _
      (fun x => by by_cases hrm : x.remember_me <;> simp [hrm])
      hjti hsmem hsold hnew
  refine ⟨by rw [hstep]; rfl, hafter, ?_⟩
  rw [refresh_none_of_no_session old true newJti now2 true _ hafter]

/-- Concrete active session bound to the JTI `"jti-old"`. -/
def session1 : UserSession :=
  { id := 1, userId := 1, refresh_token_jti := "jti-old", remember_me := false
  , is_active := true, last_activity := 0, expires_at := 1000 }

/-- Concrete database holding exactly `session1`. -/
def sampleDb : AuthDb :=
  { sessions := [session1], audit := [] }

/-- Witness for C2 at a one-session database. -/
theorem C2_stale_refresh_token_fails_witness :
    (TokenManager.refresh_access_token "jti-old" true "jti-new" 10 true sampleDb).1.isSome = true
    ∧ SessionManager.get_session_by_refresh_token "jti-old"
        (TokenManager.refresh_access_token "jti-old" true "jti-new" 10 true sampleDb).2.sessions = none
    ∧ (TokenManager.refresh_access_token "jti-old" true "jti-new" 11 true
        (TokenManager.refresh_access_token "jti-old" true "jti-new" 10 true sampleDb).2).1 = none :=
  C2_stale_refresh_token_fails "jti-old" "jti-new" 10 11 sampleDb session1
    (by decide) (by decide) (by decide) (by decide)

/-! ## Claim C9: audit-log failures inside session operations

In the source, the `SecurityAuditLog.objects.create` calls inside
`create_session`, `terminate_session` and `refresh_session_token` are not
wrapped in `try/except` (unlike the blacklist lookup in
`terminate_session`, and unlike the view-level `log_security_event`
helper, which both swallow failures).  An audit-write failure therefore
propagates out of the session operation as an exception; the session state
change executed before it persists. -/

/-- Counterexample to C9 as stated: terminating a concrete session with a
failing audit write does not return normally — the exception
(`OpError.auditFailed`) escapes `terminate_session` to its caller. -/
theorem C9_audit_failure_aborts_counterexample :
    (SessionManager.terminate_session session1 false sampleDb).1 =
      some OpError.auditFailed := by
  decide

/-- C9 as amended: when the audit write fails, the session state change
still completes — the row is deactivated (terminate), created and active
(create), or re-bound to the new JTI (refresh) — but each operation
propagates the failure as an exception instead of returning normally. -/
theorem C9_audit_failure_state_change_persists
    (s : UserSession) (db : AuthDb) (jti newJti : String)
    (now uid nid : Nat) (rm : Bool) :
    ((SessionManager.terminate_session s false db).1 = some OpError.auditFailed
      ∧ ∀ x ∈ (SessionManager.terminate_session s false db).2.sessions,
          x.id = s.id → x.is_active = false)
    ∧ ((SessionManager.create_session uid jti rm now nid false db).1 = some OpError.auditFailed
      ∧ ∃ x ∈ (SessionManager.create_session uid jti rm now nid false db).2.2.sessions,
          x.refresh_token_jti = jti ∧ x.is_active = true)
    ∧ ((SessionManager.refresh_session_token s newJti now false db).1 = some OpError.auditFailed
      ∧ ∀ x ∈ (SessionManager.refresh_session_token s newJti now false db).2.sessions,
          x.id = s.id → x.refresh_token_jti = newJti) := by
  refine ⟨⟨rfl, ?_⟩, ⟨rfl, ?_⟩, ⟨rfl, ?_⟩⟩
  · intro x hx hid
    simp only [SessionManager.terminate_session, updateById, Bool.false_eq_true,
      if_false, List.mem_map] at hx
    obtain ⟨y, _, rfl⟩ := hx
    by_cases hy : y.id = s.id
    · simp [hy, UserSession.deactivate]
    · simp only [if_neg hy] at hid ⊢
      exact absurd hid hy
  · refine ⟨{ id := nid, userId := uid, refresh_token_jti := jti, remember_me := rm
            , is_active := true, last_activity := now
            , expires_at := if rm then now + 30 * 86400 else now + 7 * 86400 },
      ?_, rfl, rfl⟩
    simp [SessionManager.create_session]
  · intro x hx hid
    simp only [SessionManager.refresh_session_token, updateById, Bool.false_eq_true,
      if_false, List.mem_map] at hx
    obtain ⟨y, _, rfl⟩ := hx
    by_cases hy : y.id = s.id
    · by_cases hrm : y.remember_me <;> simp [hy, hrm]
    · simp only [if_neg hy] at hid ⊢
      exact absurd hid hy

/-- Witness for the amended C9 at a concrete session and database. -/
theorem C9_audit_failure_state_change_persists_witness :
    ((SessionManager.terminate_session session1 false sampleDb).1 = some OpError.auditFailed
      ∧ ∀ x ∈ (SessionManager.terminate_session session1 false sampleDb).2.sessions,
          x.id = session1.id → x.is_active = false)
    ∧ ((SessionManager.create_session 1 "jti-b" false 5 2 false sampleDb).1 = some OpError.auditFailed
      ∧ ∃ x ∈ (SessionManager.create_session 1 "jti-b" false 5 2 false sampleDb).2.2.sessions,
          x.refresh_token_jti = "jti-b" ∧ x.is_active = true)
    ∧ ((SessionManager.refresh_session_token session1 "jti-new" 5 false sampleDb).1 = some OpError.auditFailed
      ∧ ∀ x ∈ (SessionManager.refresh_session_token session1 "jti-new" 5 false sampleDb).2.sessions,
          x.id = session1.id → x.refresh_token_jti = "jti-new") :=
  C9_audit_failure_state_change_persists session1 sampleDb "jti-b" "jti-new" 5 1 2 false

/-! ## Request handlers (apps/authentication/views.py with
backend/apps/authentication/serializers.py and error_handlers.py)

The store of user rows is a `List User`; `objects.get` on the unique
`username`/`email` columns is `find?`, the lookup by the non-unique
`password_reset_token` value is `filter` with Django's
zero/one/many-rows semantics made explicit.  HTTP responses keep the
fields the claims talk about: status, the `error` code, the `message`
string and the presence of the `email_sent` body key; token/session
issuance on a successful login is the `tokens_issued` flag.  Audit-log
writes in views go through `log_security_event`, which swallows failures,
so they do not influence control flow and are elided here.  Password
strength validation (`validate_password_strength`, a battery of regexes
irrelevant to these claims) is the abstract predicate `pwOk`. -/

/-- Django `save()` on one user row. -/
def updateUserById (store : List User) (uid : Nat) (f : User → User) : List User :=
  store.map (fun x => if x.id = uid then f x else x)

/-- Response fields relevant to the claims. -/
structure ApiResponse where
  status : Nat
  message : String
  email_sent : Option Bool
  error_code : Option String
  tokens_issued : Bool
  deriving Repr, DecidableEq

namespace CustomLoginSerializer

/-- The serializer's user lookup: by e-mail (lower-cased) when the
submitted username contains `'@'`, else by username. -/
def lookup_user (username : Str) (store : List User) : Option User :=
  if containsChar '@' username then
    store.find? (fun u => u.email == username.map Char.toLower)
  else
    store.find? (fun u => u.username == username)

/-- Embedding of `CustomLoginSerializer.validate`: resolve the user, reject
locked then inactive accounts, authenticate (Django's `ModelBackend`:
password check plus `is_active`), increment the failure counter on a
wrong password, reset it on success.  `Except.error` models the raised
`ValidationError`; the updated store is returned alongside. -/
def validate (store : List User) (username password : Str) (now : Nat) :
    Except Unit User × List User :=
  match lookup_user username store with
  | none => (Except.error (), store)
  | some u =>
    if u.is_account_locked now then (Except.error (), store)
    else if !u.is_active then (Except.error (), store)
    else if u.check_password password && u.is_active then
      let u1 := if 0 < u.failed_login_attempts then u.reset_failed_login_attempts else u
      (Except.ok u1, updateUserById store u.id (fun _ => u1))
    else
      let r := u.increment_failed_login_attempts now
      (Except.error (), updateUserById store u.id (fun _ => r.2))

end CustomLoginSerializer

namespace AuthErrorHandler

/-- Embedding of `AuthErrorHandler.handle_login_error`: every branch goes
through `StandardizedErrorResponse.create_authentication_error_response`,
which hard-codes `status.HTTP_401_UNAUTHORIZED`. -/
def handle_login_error (requireEmailVerification : Bool) (now : Nat) :
    Option User → Nat × String
  | some u =>
    if u.is_account_locked now then (401, "ACCOUNT_LOCKED")
    else if !u.is_active then (401, "ACCOUNT_INACTIVE")
    else if requireEmailVerification && !u.email_verified then
      (401, "EMAIL_NOT_VERIFIED")
    else (401, "INVALID_CREDENTIALS")
  | none => (401, "INVALID_CREDENTIALS")

end AuthErrorHandler

namespace EnhancedLoginView

/-- The view's own failed-user lookup in the `except` branch (note: unlike
the serializer it does not lower-case the e-mail). -/
def failed_user_lookup (username : Str) (store : List User) : Option User :=
  if containsChar '@' username then
    store.find? (fun u => u.email == username)
  else
    store.find? (fun u => u.username == username)

/-- Embedding of `EnhancedLoginView.post`: on serializer success, reset the
failure counter, issue tokens and a session (`tokens_issued`), 200; on any
serializer exception, re-resolve the user and map the outcome through
`handle_login_error`. -/
def post (requireEmailVerification : Bool) (store : List User)
    (username password : Str) (now : Nat) : ApiResponse × List User :=
  match CustomLoginSerializer.validate store username password now with
  | (Except.ok u, store1) =>
    let store2 := updateUserById store1 u.id User.reset_failed_login_attempts
    ({ status := 200, message := "", email_sent := none, error_code := none
     , tokens_issued := true }, store2)
  | (Except.error _, store1) =>
    let failed_user := failed_user_lookup username store1
    let r := AuthErrorHandler.handle_login_error requireEmailVerification now failed_user
    ({ status := r.1, message := "", email_sent := none, error_code := some r.2
     , tokens_issued := false }, store1)

end EnhancedLoginView

/-- Concrete locked account: correct-password logins are still rejected. -/
def lockedAlice : User :=
  { sampleUser with account_locked_until := some 1000, email_verified := true }

/-- C3 evaluated on the code: a login against an account whose
`account_locked_until` lies in the future, with the correct password,
returns HTTP 401 (not 423) with error code `ACCOUNT_LOCKED` and issues no
tokens.  `create_authentication_error_response` hard-codes 401; the
repository's own test (`test_security_middleware.py`) expects 423. -/
theorem C3_locked_login_returns_401_not_423 :
    (EnhancedLoginView.post true [lockedAlice] "alice".toList "pbkdf2hash".toList 500).1.status = 401
    ∧ ¬ (EnhancedLoginView.post true [lockedAlice] "alice".toList "pbkdf2hash".toList 500).1.status = 423
    ∧ (EnhancedLoginView.post true [lockedAlice] "alice".toList "pbkdf2hash".toList 500).1.error_code =
        some "ACCOUNT_LOCKED"
    ∧ (EnhancedLoginView.post true [lockedAlice] "alice".toList "pbkdf2hash".toList 500).1.tokens_issued = false := by
  decide

/-- C4 evaluated on the code: with `REQUIRE_EMAIL_VERIFICATION = true`, a
login with correct credentials for an active, unlocked account whose
`email_verified` is false succeeds with HTTP 200 and issues tokens —
`CustomLoginSerializer.validate` never consults `email_verified`, and
`handle_login_error` only runs on the exception path. -/
theorem C4_unverified_login_succeeds :
    (EnhancedLoginView.post true [sampleUser] "alice".toList "pbkdf2hash".toList 500).1.status = 200
    ∧ (EnhancedLoginView.post true [sampleUser] "alice".toList "pbkdf2hash".toList 500).1.tokens_issued = true
    ∧ (EnhancedLoginView.post true [sampleUser] "alice".toList "pbkdf2hash".toList 500).1.error_code = none
    ∧ sampleUser.email_verified = false := by
  decide

namespace PasswordResetRequestView

/-- Success message of the branch where the account exists. -/
def found_message : String :=
  "Password reset email sent. Please check your email for instructions."

/-- Success message of the `User.DoesNotExist` branch. -/
def missing_message : String :=
  "If an account with this email exists, a password reset email has been sent."

/-- Embedding of `PasswordResetRequestView.post` composed with
`PasswordResetRequestSerializer.validate_email` for a well-formed e-mail.
The serializer lower-cases the address and rejects disabled accounts (that
`ValidationError` reaches the view's generic handler, 400
`PASSWORD_RESET_FAILED`).  For an existing active account the view stores
a fresh reset token (`freshTok`, produced by the generator) with expiry
`now + 1h`, sends the e-mail (`emailOk`) and answers 200 with
`found_message` plus an `email_sent` body field; for an unknown address it
answers 200 with only `missing_message`. -/
def post (store : List User) (email freshTok : Str) (now : Nat)
    (emailOk : Bool) : ApiResponse × List User :=
  let lowered := email.map Char.toLower
  match store.find? (fun u => u.email == lowered) with
  | some u =>
    if !u.is_active then
      ({ status := 400, message := "This account is disabled."
       , email_sent := none, error_code := some "PASSWORD_RESET_FAILED"
       , tokens_issued := false }, store)
    else
      ({ status := 200, message := found_message
       , email_sent := some emailOk, error_code := none
       , tokens_issued := false },
        updateUserById store u.id (fun x =>
          { x with password_reset_token := freshTok
                 , password_reset_expires := some (now + PasswordResetTokenGenerator.token_lifetime) }))
  | none =>
    ({ status := 200, message := missing_message
     , email_sent := none, error_code := none
     , tokens_issued := false }, store)

end PasswordResetRequestView

namespace ResendEmailVerificationView

/-- Success message when the account exists and is unverified. -/
def found_message : String :=
  "Verification email sent. Please check your email."

/-- Success message when the account is already verified. -/
def verified_message : String := "Email is already verified."

/-- Success message of the `User.DoesNotExist` branch. -/
def missing_message : String :=
  "If an account with this email exists, a verification email has been sent."

/-- Embedding of `ResendEmailVerificationView.post` for a request carrying an
e-mail: already verified accounts get a no-op message; unverified ones get
a fresh verification token stored and the e-mail sent; unknown addresses
get the generic message.  All three answer 200. -/
def post (store : List User) (email freshTok : Str) (emailOk : Bool) :
    ApiResponse × List User :=
  match store.find? (fun u => u.email == email) with
  | some u =>
    if u.email_verified then
      ({ status := 200, message := verified_message
       , email_sent := none, error_code := none, tokens_issued := false }, store)
    else
      ({ status := 200, message := found_message
       , email_sent := some emailOk, error_code := none, tokens_issued := false },
        updateUserById store u.id (fun x =>
          { x with email_verification_token := freshTok }))
  | none =>
    ({ status := 200, message := missing_message
     , email_sent := none, error_code := none, tokens_issued := false }, store)

end ResendEmailVerificationView

/-- C1 evaluated on the code: for the same request, submitted once against
a store holding the (active, unverified) account and once against an empty
store, both password-reset-request and resend-verification answer HTTP 200
in both cases — but the success bodies differ (different `message` text,
and the `email_sent` key only when the account exists), so the response
does reveal whether the e-mail exists.  The `User.DoesNotExist` branches
carry the comment "don't reveal if email exists or not", which the
differing bodies defeat. -/
theorem C1_reset_and_resend_responses_differ :
    (PasswordResetRequestView.post [sampleUser] "a@x.com".toList "tok".toList 0 true).1.status = 200
    ∧ (PasswordResetRequestView.post [] "a@x.com".toList "tok".toList 0 true).1.status = 200
    ∧ ¬ (PasswordResetRequestView.post [sampleUser] "a@x.com".toList "tok".toList 0 true).1.message =
        (PasswordResetRequestView.post [] "a@x.com".toList "tok".toList 0 true).1.message
    ∧ ¬ (PasswordResetRequestView.post [sampleUser] "a@x.com".toList "tok".toList 0 true).1.email_sent =
        (PasswordResetRequestView.post [] "a@x.com".toList "tok".toList 0 true).1.email_sent
    ∧ (ResendEmailVerificationView.post [sampleUser] "a@x.com".toList "tok".toList true).1.status = 200
    ∧ (ResendEmailVerificationView.post [] "a@x.com".toList "tok".toList true).1.status = 200
    ∧ ¬ (ResendEmailVerificationView.post [sampleUser] "a@x.com".toList "tok".toList true).1.message =
        (ResendEmailVerificationView.post [] "a@x.com".toList "tok".toList true).1.message := by
  decide

/-! ## Claim C10: password-reset tokens are single-use -/

/-- Embedding of `token_utils.validate_user_password_reset_token` via
`TokenValidationService.validate_password_reset_token`: the token must
equal the stored `password_reset_token`, the stored expiry (if any) must
not have passed, and the generator's `validate_token_with_expiry` must
accept it. -/
def validate_user_password_reset_token (dhash : Str → Str) (u : User)
    (token : Str) (now : Nat) : Bool :=
  if u.password_reset_token ≠ token then false
  else if (match u.password_reset_expires with
           | some e => decide (e < now)
           | none => false) then false
  else PasswordResetTokenGenerator.validate_token_with_expiry dhash u token now

namespace PasswordResetConfirmView

/-- Embedding of `PasswordResetConfirmView.post` composed with
`PasswordResetConfirmSerializer`.  Serializer: tokens shorter than 10
characters raise "Invalid reset token." (which the view's generic handler
maps to 400 `INVALID_RESET_TOKEN` as the message contains "invalid"), and
the password strength battery is the abstract `pwOk` (its failure messages
contain neither "invalid" nor "expired", hence 400
`PASSWORD_RESET_FAILED`).  View: `User.objects.get(password_reset_token=
token)` with zero matches is the 400 `INVALID_RESET_TOKEN` branch, several
matches raise `MultipleObjectsReturned` into the generic handler;
`verify_password_reset_token` failure is 400 `INVALID_RESET_TOKEN`; on
success the password is set and `clear_password_reset_token` empties the
token and expiry. -/
def post (dhash : Str → Str) (pwOk : Str → Bool) (store : List User)
    (token password : Str) (now : Nat) : ApiResponse × List User :=
  if token.length < 10 then
    ({ status := 400, message := "Invalid or expired password reset token."
     , email_sent := none, error_code := some "INVALID_RESET_TOKEN"
     , tokens_issued := false }, store)
  else if pwOk password = false then
    ({ status := 400, message := "Failed to reset password. Please try again."
     , email_sent := none, error_code := some "PASSWORD_RESET_FAILED"
     , tokens_issued := false }, store)
  else
    match store.filter (fun u => u.password_reset_token == token) with
    | [] =>
      ({ status := 400, message := "Invalid or expired password reset token."
       , email_sent := none, error_code := some "INVALID_RESET_TOKEN"
       , tokens_issued := false }, store)
    | [u] =>
      if validate_user_password_reset_token dhash u token now then
        ({ status := 200
         , message := "Password has been reset successfully. You can now log in with your new password."
         , email_sent := none, error_code := none, tokens_issued := false },
          updateUserById store u.id (fun x =>
            { x with password := password
                   , password_reset_token := []
                   , password_reset_expires := none }))
      else
        ({ status := 400, message := "Invalid or expired password reset token."
         , email_sent := none, error_code := some "INVALID_RESET_TOKEN"
         , tokens_issued := false }, store)
    | _ :: _ :: _ =>
      ({ status := 400, message := "Failed to reset password. Please try again."
       , email_sent := none, error_code := some "PASSWORD_RESET_FAILED"
       , tokens_issued := false }, store)

end PasswordResetConfirmView

/-- C10: after a successful password-reset confirm with token `t`, the
matched user's stored `password_reset_token` is empty and
`password_reset_expires` is null (and the password is the new one); no
user in the resulting store carries `t` any more, so a second confirm with
the same `t` answers the `INVALID_RESET_TOKEN` error and leaves the store
— in particular every password — unchanged. -/
theorem C10_reset_token_single_use (dhash : Str → Str) (pwOk : Str → Bool)
    (store : List User) (t pw : Str) (now now2 : Nat)
    (h200 : (PasswordResetConfirmView.post dhash pwOk store t pw now).1.status = 200) :
    (∃ u, store.filter (fun x => x.password_reset_token == t) = [u]
      ∧ ∀ v ∈ (PasswordResetConfirmView.post dhash pwOk store t pw now).2,
          v.id = u.id →
            v.password_reset_token = [] ∧ v.password_reset_expires = none ∧ v.password = pw)
    ∧ (∀ v ∈ (PasswordResetConfirmView.post dhash pwOk store t pw now).2,
        v.password_reset_token ≠ t)
    ∧ (PasswordResetConfirmView.post dhash pwOk
        ((PasswordResetConfirmView.post dhash pwOk store t pw now).2) t pw now2).1.error_code =
          some "INVALID_RESET_TOKEN"
    ∧ (PasswordResetConfirmView.post dhash pwOk
        ((PasswordResetConfirmView.post dhash pwOk store t pw now).2) t pw now2).2 =
          (PasswordResetConfirmView.post dhash pwOk store t pw now).2 := by
  by_cases hlt : t.length < 10
  · exfalso
    unfold PasswordResetConfirmView.post at h200
    rw [if_pos hlt] at h200
    simp at h200
  by_cases hpw : pwOk pw = false
  · exfalso
    unfold PasswordResetConfirmView.post at h200
    rw [if_neg hlt, if_pos hpw] at h200
    simp at h200
  rcases hfil : store.filter (fun u => u.password_reset_token == t) with _ | ⟨u, _ | ⟨v, rest⟩⟩
  · exfalso
    unfold PasswordResetConfirmView.post at h200
    rw [if_neg hlt, if_neg hpw, hfil] at h200
    simp at h200
  pick_goal 2
  · exfalso
    unfold PasswordResetConfirmView.post at h200
    rw [if_neg hlt, if_neg hpw, hfil] at h200
    simp at h200
  by_cases hval : validate_user_password_reset_token dhash u t now = true
  case neg =>
    exfalso
    unfold PasswordResetConfirmView.post at h200
    rw [if_neg hlt, if_neg hpw, hfil] at h200
    simp [hval] at h200
  have hpost :
      PasswordResetConfirmView.post dhash pwOk store t pw now =
        ({ status := 200
         , message := "Password has been reset successfully. You can now log in with your new password."
         , email_sent := none, error_code := none, tokens_issued := false },
          updateUserById store u.id (fun x =>
            { x with password := pw
                   , password_reset_token := []
                   , password_reset_expires := none })) := by
    unfold PasswordResetConfirmView.post
    rw [if_neg hlt, if_neg hpw, hfil]
    simp [hval]
  have htne : t ≠ [] := by
    intro hnil
    rw [hnil] at hlt
    simp at hlt
  have hnomatch : ∀ v ∈ (PasswordResetConfirmView.post dhash pwOk store t pw now).2,
      v.password_reset_token ≠ t := by
    rw [hpost]
    intro w hw
    simp only [updateUserById, List.mem_map] at hw
    obtain ⟨y, hy, rfl⟩ := hw
    by_cases hid : y.id = u.id
    · simp only [if_pos hid]
      exact fun h => htne h.symm
    · simp only [if_neg hid]
      intro hyt
      have hymem : y ∈ store.filter (fun x => x.password_reset_token == t) :=
        List.mem_filter.mpr ⟨hy, by simp [hyt]⟩
      rw [hfil] at hymem
      have : y = u := by simpa using hymem
      exact hid (congrArg User.id this)
  have hfil2 : ((PasswordResetConfirmView.post dhash pwOk store t pw now).2).filter
      (fun x => x.password_reset_token == t) = [] := by
    rw [List.filter_eq_nil_iff]
    intro a ha
    simpa using hnomatch a ha
  have hsecond :
      PasswordResetConfirmView.post dhash pwOk
        ((PasswordResetConfirmView.post dhash pwOk store t pw now).2) t pw now2 =
      ({ status := 400, message := "Invalid or expired password reset token."
       , email_sent := none, error_code := some "INVALID_RESET_TOKEN"
       , tokens_issued := false },
        (PasswordResetConfirmView.post dhash pwOk store t pw now).2) := by
    conv_lhs => rw [PasswordResetConfirmView.post.eq_def]
    rw [if_neg hlt, if_neg hpw, hfil2]
  refine ⟨⟨u, hfil, ?_⟩, hnomatch, by rw [hsecond], by rw [hsecond]⟩
  rw [hpost]
  intro w hw hid
  simp only [updateUserById, List.mem_map] at hw
  obtain ⟨y, hy, rfl⟩ := hw
  by_cases hyid : y.id = u.id
  · simp [hyid]
  · simp only [if_neg hyid] at hid
    exact absurd hid hyid

/-- Concrete account holding a stored, valid enhanced reset token. -/
def resetAlice : User :=
  { sampleUser with password_reset_token := "0-hhhhhhhh:0".toList
                  , password_reset_expires := some 3600 }

/-- Concrete stand-in for Django's keyed token hash. -/
def dhashConst : Str → Str := fun _ => "hhhhhhhh".toList

/-- Concrete stand-in for the password strength battery. -/
def pwOkAll : Str → Bool := fun _ => true

/-- Witness for C10: a concrete confirm succeeds, clears the token, and the
replayed confirm fails with `INVALID_RESET_TOKEN` leaving the store
unchanged. -/
theorem C10_reset_token_single_use_witness :
    (∃ u, [resetAlice].filter (fun x => x.password_reset_token == "0-hhhhhhhh:0".toList) = [u]
      ∧ ∀ v ∈ (PasswordResetConfirmView.post dhashConst pwOkAll [resetAlice]
            "0-hhhhhhhh:0".toList "NewPass9".toList 0).2,
          v.id = u.id →
            v.password_reset_token = [] ∧ v.password_reset_expires = none
              ∧ v.password = "NewPass9".toList)
    ∧ (∀ v ∈ (PasswordResetConfirmView.post dhashConst pwOkAll [resetAlice]
          "0-hhhhhhhh:0".toList "NewPass9".toList 0).2,
        v.password_reset_token ≠ "0-hhhhhhhh:0".toList)
    ∧ (PasswordResetConfirmView.post dhashConst pwOkAll
        ((PasswordResetConfirmView.post dhashConst pwOkAll [resetAlice]
          "0-hhhhhhhh:0".toList "NewPass9".toList 0).2)
        "0-hhhhhhhh:0".toList "NewPass9".toList 5).1.error_code =
          some "INVALID_RESET_TOKEN"
    ∧ (PasswordResetConfirmView.post dhashConst pwOkAll
        ((PasswordResetConfirmView.post dhashConst pwOkAll [resetAlice]
          "0-hhhhhhhh:0".toList "NewPass9".toList 0).2)
        "0-hhhhhhhh:0".toList "NewPass9".toList 5).2 =
          (PasswordResetConfirmView.post dhashConst pwOkAll [resetAlice]
            "0-hhhhhhhh:0".toList "NewPass9".toList 0).2 :=
  C10_reset_token_single_use dhashConst pwOkAll [resetAlice]
    "0-hhhhhhhh:0".toList "NewPass9".toList 0 5 (by decide)
